import Mathlib

/-!
Verification of the PlanMySky Historical Pattern Aggregation Engine and
frontend helpers.

The repository's core component (window selection over a multi-decade daily
weather record and the statistics engine producing a `PredictionResult`) is
specified in `spec.md`; its Python implementation
(`historical_pattern_predictor.py`) is referenced by the repository's
documentation but its source file is not part of the checked-in tree, so the
engine is modelled here directly from the specification's words.  The
frontend helpers (`weatherApi.js`, `ResultsPanel.jsx`) are embedded from
their JavaScript sources.

All numeric quantities are modelled with `ℚ` (the spec's "real" values are
exact in the embedding; no statistical claim below depends on rounding).
-/

namespace PlanMySky

/-- Modelled from the spec: error taxonomy of the engine (spec §7):
`InvalidDate`, `DataUnavailable`, `InsufficientData`. -/
inductive EngineError where
  | InvalidDate
  | DataUnavailable
  | InsufficientData
deriving DecidableEq

/-- Modelled from the spec: one row of a location's historical record
(spec §3 `DailyObservation`): calendar date plus the numeric fields the
statistics engine consumes. -/
structure DailyObservation where
  year : Nat
  month : Nat
  day : Nat
  temperature_mean : ℚ
  precipitation_mm : ℚ
  wind_speed_ms : ℚ
  cloud_cover_pct : ℚ
deriving DecidableEq

/-- Modelled from the spec: days in each month of the (non-leap) annual
cycle used for day-of-year arithmetic. -/
def daysInMonth (m : Nat) : Nat :=
  if m = 2 then 28
  else if m = 4 ∨ m = 6 ∨ m = 9 ∨ m = 11 then 30
  else 31

/-- Modelled from the spec: a month/day pair is a valid calendar date when
the month is in `[1,12]` and the day is in `[1, days-in-month]` (spec §4.2). -/
def validDate (m d : Nat) : Bool :=
  1 ≤ m && m ≤ 12 && 1 ≤ d && d ≤ daysInMonth m

/-- Cumulative day count before month `m` in the non-leap annual cycle. -/
def monthStart (m : Nat) : Nat :=
  match m with
  | 1 => 0
  | 2 => 31
  | 3 => 59
  | 4 => 90
  | 5 => 120
  | 6 => 151
  | 7 => 181
  | 8 => 212
  | 9 => 243
  | 10 => 273
  | 11 => 304
  | 12 => 334
  | _ => 0

/-- Modelled from the spec: day-of-year of a month/day pair along the
annual cycle (1 for Jan 1, 365 for Dec 31). -/
def dayOfYear (m d : Nat) : Nat :=
  monthStart m + d

/-- Length of the annual cycle used for wraparound (spec §4.2: day-of-year
distance with wraparound at the year boundary). -/
def CYCLE_LEN : Nat := 365

/-- Modelled from the spec: circular distance between two day-of-year
values along the annual cycle, wrapping across the December–January
boundary. -/
def cyclicDist (a b : Nat) : Nat :=
  min ((a + CYCLE_LEN - b) % CYCLE_LEN) ((b + CYCLE_LEN - a) % CYCLE_LEN)

/-- Modelled from the spec: whether an observation's month/day falls within
`window_days` of the target month/day, measured as day-of-year distance
with wraparound (spec §4.2 selection rule). -/
def inWindow (target_month target_day window_days m d : Nat) : Bool :=
  cyclicDist (dayOfYear m d) (dayOfYear target_month target_day) ≤ window_days

/-- Modelled from the spec: the Window Selector (spec §4.2).  Fails with
`InvalidDate` for an out-of-range target month/day; otherwise returns, for
every year present in the dataset, the observations whose month/day falls
within the circular window.  An empty selection is returned as a success,
never as an error. -/
def select_window (dataset : List DailyObservation) (target_month target_day window_days : Nat) :
    Except EngineError (List DailyObservation) :=
  if validDate target_month target_day then
    Except.ok (dataset.filter (fun o => inWindow target_month target_day window_days o.month o.day))
  else
    Except.error EngineError.InvalidDate

/-- Mean of a list of rationals (sum divided by length; `0` for the empty
list since division by zero is zero in `ℚ`). -/
def mean (l : List ℚ) : ℚ :=
  l.sum / l.length

/-- Maximum of a list of rationals (`0` for the empty list). -/
def listMax : List ℚ → ℚ
  | [] => 0
  | x :: xs => xs.foldl max x

/-- Minimum of a list of rationals (`0` for the empty list). -/
def listMin : List ℚ → ℚ
  | [] => 0
  | x :: xs => xs.foldl min x

/-- Nearest-rank index of the `num/den` quantile in a list of `n` sorted
values: `⌊(num/den) * (n-1)⌋`. -/
def percentileIdx (num den n : Nat) : Nat :=
  (num * (n - 1)) / den

/-- Modelled from the spec: empirical nearest-rank percentile of a list of
values — the element of the ascending sort at index `⌊(num/den)*(n-1)⌋`
(spec §4.3: expected range is a configurable empirical percentile band). -/
def percentile (l : List ℚ) (num den : Nat) : ℚ :=
  (l.insertionSort (fun a b => a ≤ b)).getD (percentileIdx num den l.length) 0

/-- Modelled from the spec: rainfall intensity thresholds (spec §4.3
documented defaults: light ≤ 5 mm, heavy > 10 mm). -/
def THRESHOLD_LIGHT : ℚ := 5

/-- Modelled from the spec: heavy-rain threshold, consistent with the
extreme-probability rain threshold (spec §4.3). -/
def THRESHOLD_HEAVY : ℚ := 10

/-- Modelled from the spec: minimum observation count below which the
statistics engine refuses to produce a result (spec §4.3 failure
semantics: default at least two years' worth of observations). -/
def MIN_OBSERVATIONS : Nat := 2

/-- Modelled from the spec: rainfall-probability cutoff above which the
weather category is "Rainy" (spec §4.3 classification rules; the exact
cutoff is configuration). -/
def RAIN_PROB_CUTOFF : ℚ := 6/10

/-- Modelled from the spec: cloud-cover mean cutoff above which the
category is "Cloudy" (spec §4.3). -/
def CLOUDY_CUTOFF : ℚ := 70

/-- Modelled from the spec: cloud-cover mean cutoff above which the
category is "Partly Cloudy" (spec §4.3). -/
def PARTLY_CLOUDY_CUTOFF : ℚ := 40

/-- Modelled from the spec: rainfall statistics of a `PredictionResult`
(spec §4.3 / §6; the standard-deviation field involves a square root and is
not carried in this exact-arithmetic embedding). -/
structure RainfallStats where
  probability : ℚ
  expected_amount_mm : ℚ
  median_amount_mm : ℚ
  max_recorded_mm : ℚ
  no_rain_days : Nat
  light_rain_days : Nat
  moderate_rain_days : Nat
  heavy_rain_days : Nat
deriving DecidableEq

/-- Modelled from the spec: the expected temperature range — an empirical
percentile band, not the record min/max (spec §4.3). -/
structure TempRange where
  min : ℚ
  max : ℚ
deriving DecidableEq

/-- Modelled from the spec: temperature statistics of a
`PredictionResult` (spec §4.3 / §6). -/
structure TemperatureStats where
  mean_avg_celsius : ℚ
  expected_range : TempRange
  record_low_celsius : ℚ
  record_high_celsius : ℚ
deriving DecidableEq

/-- Modelled from the spec: wind statistics of a `PredictionResult`. -/
structure WindStats where
  mean_speed_ms : ℚ
  max_recorded_ms : ℚ
deriving DecidableEq

/-- Modelled from the spec: cloud-cover statistics of a
`PredictionResult`. -/
structure CloudStats where
  mean_percent : ℚ
  clear_days_percent : ℚ
  cloudy_days_percent : ℚ
deriving DecidableEq

/-- Modelled from the spec: extreme-event threshold-crossing probabilities
(spec §4.3: temperature above 30 °C, below 10 °C, rain above 10 mm, wind
above 5 m/s). -/
structure ExtremeProbs where
  temp_above_30C : ℚ
  temp_below_10C : ℚ
  heavy_rain_above_10mm : ℚ
  high_wind_above_5ms : ℚ
deriving DecidableEq

/-- Modelled from the spec: the engine's output record (spec §3
`PredictionResult`; the recent-years trend map is display-only and not
needed by any verified property). -/
structure PredictionResult where
  target_month : Nat
  target_day : Nat
  total_observations : Nat
  rainfall : RainfallStats
  temperature : TemperatureStats
  wind : WindStats
  cloud_cover : CloudStats
  weather_category : String
  category_confidence : ℚ
  extreme_probabilities : ExtremeProbs
deriving DecidableEq

/-- Modelled from the spec: the deterministic weather-category rule,
evaluated in priority order over the aggregate statistics, with a
confidence score monotone in the triggering statistic (spec §4.3:
rain probability above a high cutoff → "Rainy"; else cloud mean above a
cutoff → "Cloudy"; else moderate cloud → "Partly Cloudy"; else
"Sunny/Clear"; first matching rule wins). -/
def classify (rainProb cloudMean : ℚ) : String × ℚ :=
  if RAIN_PROB_CUTOFF < rainProb then ("Rainy", rainProb)
  else if CLOUDY_CUTOFF < cloudMean then ("Cloudy", cloudMean / 100)
  else if PARTLY_CLOUDY_CUTOFF < cloudMean then ("Partly Cloudy", cloudMean / 100)
  else ("Sunny/Clear", 1 - cloudMean / 100)

/-- Modelled from the spec: the Statistics Engine (spec §4.3 `summarize`).
Fails with `InsufficientData` when the selection holds fewer than
`MIN_OBSERVATIONS` observations; otherwise reduces the selection to the
aggregate `PredictionResult`: rainfall probability as the fraction of
observations with positive precipitation, descriptive statistics over the
whole selection (zero-rain days included), a 10th–90th percentile expected
temperature range with true record extremes, extreme-event threshold
fractions, and the priority-ordered category with its confidence. -/
def summarize (sel : List DailyObservation) (target_month target_day : Nat) :
    Except EngineError PredictionResult :=
  if sel.length < MIN_OBSERVATIONS then
    Except.error EngineError.InsufficientData
  else
    let n : ℚ := sel.length
    let precip := sel.map (fun o => o.precipitation_mm)
    let temps := sel.map (fun o => o.temperature_mean)
    let winds := sel.map (fun o => o.wind_speed_ms)
    let clouds := sel.map (fun o => o.cloud_cover_pct)
    let rainProb : ℚ := (sel.countP (fun o => 0 < o.precipitation_mm)) / n
    let cloudMean := mean clouds
    let cat := classify rainProb cloudMean
    Except.ok
      { target_month := target_month
        target_day := target_day
        total_observations := sel.length
        rainfall :=
          { probability := rainProb
            expected_amount_mm := mean precip
            median_amount_mm := percentile precip 1 2
            max_recorded_mm := listMax precip
            no_rain_days := sel.countP (fun o => o.precipitation_mm = 0)
            light_rain_days :=
              sel.countP (fun o => 0 < o.precipitation_mm ∧ o.precipitation_mm ≤ THRESHOLD_LIGHT)
            moderate_rain_days :=
              sel.countP (fun o =>
                THRESHOLD_LIGHT < o.precipitation_mm ∧ o.precipitation_mm ≤ THRESHOLD_HEAVY)
            heavy_rain_days := sel.countP (fun o => THRESHOLD_HEAVY < o.precipitation_mm) }
        temperature :=
          { mean_avg_celsius := mean temps
            expected_range := { min := percentile temps 1 10, max := percentile temps 9 10 }
            record_low_celsius := listMin temps
            record_high_celsius := listMax temps }
        wind := { mean_speed_ms := mean winds, max_recorded_ms := listMax winds }
        cloud_cover :=
          { mean_percent := cloudMean
            clear_days_percent := (sel.countP (fun o => o.cloud_cover_pct < 20)) / n * 100
            cloudy_days_percent := (sel.countP (fun o => 60 < o.cloud_cover_pct)) / n * 100 }
        weather_category := cat.1
        category_confidence := cat.2
        extreme_probabilities :=
          { temp_above_30C := (sel.countP (fun o => 30 < o.temperature_mean)) / n
            temp_below_10C := (sel.countP (fun o => o.temperature_mean < 10)) / n
            heavy_rain_above_10mm := (sel.countP (fun o => 10 < o.precipitation_mm)) / n
            high_wind_above_5ms := (sel.countP (fun o => 5 < o.wind_speed_ms)) / n } }

/-- Query parameters sent by `getWeatherPrediction` in
`frontend/src/services/weatherApi.js`. -/
structure PredictQuery where
  location : String
  window_days : Nat
deriving DecidableEq

/-- Embedding of `getWeatherPrediction` (`weatherApi.js`): builds the GET
request for `/api/predict/{month}/{day}` with query parameters
`location` and `window_days`; the `windowDays` argument defaults to `7`
when the caller omits it (modelled as `none`). -/
def getWeatherPrediction (month day : Nat) (location : String) (windowDays : Option Nat) :
    String × PredictQuery :=
  (s!"/api/predict/{month}/{day}", { location := location, window_days := windowDays.getD 7 })

/-- A weather-station location as served by `/api/locations` and consumed
by `findNearestLocation` (`weatherApi.js`). -/
structure GeoLocation where
  name : String
  latitude : ℚ
  longitude : ℚ
deriving DecidableEq

/-- Embedding of `findNearestLocation` (`weatherApi.js`): throws
(`Except.error`) when the fetched `locations` field is missing (`none`) or
the list is empty; otherwise computes each location's distance to the
query point, sorts ascending by distance and returns the first element
(the location paired with its distance).  The distance function is a
parameter: the source's `calculateDistance` is floating-point Haversine
trigonometry, and every property proved below holds for an arbitrary
distance function, hence for the source's. -/
def findNearestLocation (dist : ℚ → ℚ → ℚ → ℚ → ℚ) (lat lon : ℚ)
    (locations : Option (List GeoLocation)) : Except String (GeoLocation × ℚ) :=
  match locations with
  | none => Except.error "No locations available"
  | some locs =>
    if locs.isEmpty then Except.error "No locations available"
    else
      let distances := locs.map (fun loc => (loc, dist lat lon loc.latitude loc.longitude))
      let sorted := distances.insertionSort (fun a b => a.2 ≤ b.2)
      Except.ok (sorted.headD (⟨"", 0, 0⟩, 0))

/-- One slice of the survey poll owned by `ResultsPanel.jsx`: an option
name with its vote count (a JavaScript number, exact here). -/
structure PollEntry where
  name : String
  value : ℚ
deriving DecidableEq

/-- The component state touched by `handleVote` in `ResultsPanel.jsx`:
the `pollResults` array and the `submitted` flag. -/
structure PanelState where
  pollResults : List PollEntry
  submitted : Bool
deriving DecidableEq

/-- Embedding of `handleVote` (`ResultsPanel.jsx`): when no option is
selected (`null` or the falsy empty string) the state is returned
untouched; otherwise every poll entry whose name equals the selected
option gets its value incremented by one, all other entries are kept as
they are, and `submitted` is set. -/
def handleVote (selectedOption : Option String) (s : PanelState) : PanelState :=
  match selectedOption with
  | none => s
  | some opt =>
    if opt = "" then s
    else
      { pollResults := s.pollResults.map (fun item =>
          if item.name = opt then { item with value := item.value + 1 } else item)
        submitted := true }

/-- Helper building a `DailyObservation` with the given date, temperature
and precipitation (wind and cloud cover zero). -/
def mkObs (y m d : Nat) (t p : ℚ) : DailyObservation :=
  { year := y, month := m, day := d, temperature_mean := t, precipitation_mm := p
    wind_speed_ms := 0, cloud_cover_pct := 0 }

/-- The spec's end-to-end example selection (spec §8): three July 15
observations with precipitation `[0, 5, 12]` mm and temperature means
`[24, 26, 28]` °C. -/
def exampleSelection : List DailyObservation :=
  [mkObs 2001 7 15 24 0, mkObs 2002 7 15 26 5, mkObs 2003 7 15 28 12]

/-- A non-degenerate eleven-year selection (one July 15 observation per
year) whose temperature distribution is heavily skewed: ten years at 0 °C
and one at 1100 °C. -/
def skewedSelection : List DailyObservation :=
  (List.range 10).map (fun i => mkObs (2000 + i) 7 15 0 0) ++ [mkObs 2010 7 15 1100 0]

/-- A dataset with a single year of coverage (two consecutive July days
of the year 2020, distinct dates). -/
def oneYearDataset : List DailyObservation :=
  [mkObs 2020 7 15 25 0, mkObs 2020 7 16 26 2]

/-- A synthetic dataset spanning a year boundary: late-December and
early-January observations plus an unrelated July row. -/
def wrapDataset : List DailyObservation :=
  [mkObs 2019 12 27 5 1, mkObs 2019 12 28 5 0, mkObs 2019 12 31 4 0,
   mkObs 2020 1 3 3 2, mkObs 2020 7 15 25 0]

/-- The initial poll state of `ResultsPanel.jsx`: the three seeded options
with their starting counts and `submitted = false`. -/
def initialPanelState : PanelState :=
  { pollResults :=
      [{ name := "Stay home", value := 40 },
       { name := "Go out anyway", value := 35 },
       { name := "Work outdoors", value := 25 }]
    submitted := false }

/-- Two concrete weather-station locations used to exercise
`findNearestLocation`. -/
def sampleLocations : List GeoLocation :=
  [{ name := "kathmandu_nepal", latitude := 277/10, longitude := 853/10 },
   { name := "newyork_usa", latitude := 407/10, longitude := -740/10 }]

instance : IsTotal (GeoLocation × ℚ) (fun a b => a.2 ≤ b.2) :=
  ⟨fun a b => le_total a.2 b.2⟩

instance : IsTrans (GeoLocation × ℚ) (fun a b => a.2 ≤ b.2) :=
  ⟨fun _ _ _ hab hbc => le_trans hab hbc⟩

theorem le_foldl_max (l : List ℚ) (x : ℚ) : x ≤ l.foldl max x := by
  induction l generalizing x with
  | nil => exact le_refl x
  | cons a l ih => exact le_trans (le_max_left x a) (ih (max x a))

theorem mem_le_foldl_max {l : List ℚ} {y : ℚ} (x : ℚ) (hy : y ∈ l) :
    y ≤ l.foldl max x := by
  induction l generalizing x with
  | nil => cases hy
  | cons a l ih =>
    rcases List.mem_cons.mp hy with rfl | hy
    · exact le_trans (le_max_right x y) (le_foldl_max l (max x y))
    · exact ih (max x a) hy

theorem le_listMax {l : List ℚ} {y : ℚ} (hy : y ∈ l) : y ≤ listMax l := by
  cases l with
  | nil => cases hy
  | cons x xs =>
    rcases List.mem_cons.mp hy with rfl | hy
    · exact le_foldl_max xs y
    · exact mem_le_foldl_max x hy

theorem foldl_min_le (l : List ℚ) (x : ℚ) : l.foldl min x ≤ x := by
  induction l generalizing x with
  | nil => exact le_refl x
  | cons a l ih => exact le_trans (ih (min x a)) (min_le_left x a)

theorem foldl_min_le_mem {l : List ℚ} {y : ℚ} (x : ℚ) (hy : y ∈ l) :
    l.foldl min x ≤ y := by
  induction l generalizing x with
  | nil => cases hy
  | cons a l ih =>
    rcases List.mem_cons.mp hy with rfl | hy
    · exact le_trans (foldl_min_le l (min x y)) (min_le_right x y)
    · exact ih (min x a) hy

theorem listMin_le {l : List ℚ} {y : ℚ} (hy : y ∈ l) : listMin l ≤ y := by
  cases l with
  | nil => cases hy
  | cons x xs =>
    rcases List.mem_cons.mp hy with rfl | hy
    · exact foldl_min_le xs y
    · exact foldl_min_le_mem x hy

theorem mean_le_listMax {l : List ℚ} (hl : l ≠ []) : mean l ≤ listMax l := by
  have hn : 0 < (l.length : ℚ) := by
    exact_mod_cast List.length_pos.mpr hl
  rw [mean, div_le_iff₀ hn]
  have h := List.sum_le_card_nsmul l (listMax l) (fun y hy => le_listMax hy)
  rw [nsmul_eq_mul] at h
  linarith

theorem listMin_le_mean {l : List ℚ} (hl : l ≠ []) : listMin l ≤ mean l := by
  have hn : 0 < (l.length : ℚ) := by
    exact_mod_cast List.length_pos.mpr hl
  rw [mean, le_div_iff₀ hn]
  have h := List.card_nsmul_le_sum l (listMin l) (fun y hy => listMin_le hy)
  rw [nsmul_eq_mul] at h
  linarith

theorem percentileIdx_lt {num den n : Nat} (hnum : num ≤ den) (hden : 0 < den)
    (hn : 0 < n) : percentileIdx num den n < n := by
  unfold percentileIdx
  have h1 : num * (n - 1) ≤ den * (n - 1) := Nat.mul_le_mul_right _ hnum
  have h2 : num * (n - 1) / den ≤ den * (n - 1) / den := Nat.div_le_div_right h1
  have h3 : den * (n - 1) / den = n - 1 := Nat.mul_div_cancel_left _ hden
  omega

theorem percentile_mem {l : List ℚ} {num den : Nat} (hl : l ≠ [])
    (hnum : num ≤ den) (hden : 0 < den) : percentile l num den ∈ l := by
  unfold percentile
  have hlen : 0 < l.length := List.length_pos.mpr hl
  have hidx : percentileIdx num den l.length <
      (l.insertionSort (fun a b => a ≤ b)).length := by
    rw [List.length_insertionSort]
    exact percentileIdx_lt hnum hden hlen
  rw [List.getD_eq_getElem _ _ hidx]
  exact (List.mem_insertionSort _).mp (List.getElem_mem hidx)

theorem percentile_mono {l : List ℚ} {num1 num2 den : Nat} (hl : l ≠ [])
    (h12 : num1 ≤ num2) (hnum : num2 ≤ den) (hden : 0 < den) :
    percentile l num1 den ≤ percentile l num2 den := by
  unfold percentile
  have hlen : 0 < l.length := List.length_pos.mpr hl
  have hsl : (l.insertionSort (fun a b => a ≤ b)).length = l.length :=
    List.length_insertionSort _ _
  have hidx2 : percentileIdx num2 den l.length <
      (l.insertionSort (fun a b => a ≤ b)).length := by
    rw [hsl]; exact percentileIdx_lt hnum hden hlen
  have hidx12 : percentileIdx num1 den l.length ≤ percentileIdx num2 den l.length :=
    Nat.div_le_div_right (Nat.mul_le_mul_right _ h12)
  have hidx1 : percentileIdx num1 den l.length <
      (l.insertionSort (fun a b => a ≤ b)).length :=
    lt_of_le_of_lt hidx12 hidx2
  rw [List.getD_eq_get _ _ hidx1, List.getD_eq_get _ _ hidx2]
  exact (List.sorted_insertionSort _ l).rel_get_of_le (by exact hidx12)

theorem dayOfYear_range {m d : Nat} (h : validDate m d = true) :
    1 ≤ dayOfYear m d ∧ dayOfYear m d ≤ 365 := by
  simp only [validDate, Bool.and_eq_true, decide_eq_true_eq] at h
  obtain ⟨⟨⟨h1, h2⟩, h3⟩, h4⟩ := h
  unfold dayOfYear
  interval_cases m <;> simp_all [monthStart, daysInMonth] <;> omega

theorem dayOfYear_inj {m1 d1 m2 d2 : Nat} (h1 : validDate m1 d1 = true)
    (h2 : validDate m2 d2 = true) (h : dayOfYear m1 d1 = dayOfYear m2 d2) :
    m1 = m2 ∧ d1 = d2 := by
  simp only [validDate, Bool.and_eq_true, decide_eq_true_eq] at h1 h2
  obtain ⟨⟨⟨a1, a2⟩, a3⟩, a4⟩ := h1
  obtain ⟨⟨⟨b1, b2⟩, b3⟩, b4⟩ := h2
  unfold dayOfYear at h
  interval_cases m1 <;> interval_cases m2 <;> simp_all [monthStart, daysInMonth] <;> omega

theorem cyclicDist_eq_zero {a b : Nat} (ha1 : 1 ≤ a) (ha2 : a ≤ 365)
    (hb1 : 1 ≤ b) (hb2 : b ≤ 365) (h : cyclicDist a b = 0) : a = b := by
  unfold cyclicDist CYCLE_LEN at h
  omega

theorem summarize_ok_spec {sel : List DailyObservation} {tm td : Nat}
    {r : PredictionResult} (h : summarize sel tm td = Except.ok r) :
    MIN_OBSERVATIONS ≤ sel.length ∧
    r.rainfall.probability =
      ((sel.countP (fun o => 0 < o.precipitation_mm) : ℚ) / (sel.length : ℚ)) ∧
    r.rainfall.expected_amount_mm = mean (sel.map (fun o => o.precipitation_mm)) ∧
    r.temperature.mean_avg_celsius = mean (sel.map (fun o => o.temperature_mean)) ∧
    r.temperature.expected_range.min =
      percentile (sel.map (fun o => o.temperature_mean)) 1 10 ∧
    r.temperature.expected_range.max =
      percentile (sel.map (fun o => o.temperature_mean)) 9 10 ∧
    r.temperature.record_low_celsius = listMin (sel.map (fun o => o.temperature_mean)) ∧
    r.temperature.record_high_celsius = listMax (sel.map (fun o => o.temperature_mean)) ∧
    r.cloud_cover.mean_percent = mean (sel.map (fun o => o.cloud_cover_pct)) ∧
    r.weather_category = (classify r.rainfall.probability r.cloud_cover.mean_percent).1 ∧
    r.category_confidence = (classify r.rainfall.probability r.cloud_cover.mean_percent).2 := by
  by_cases hl : sel.length < MIN_OBSERVATIONS
  · simp [summarize, hl] at h
  · simp only [summarize, hl, if_false, if_neg hl, Except.ok.injEq] at h
    subst h
    refine ⟨Nat.le_of_not_lt hl, rfl, rfl, rfl, rfl, rfl, rfl, rfl, rfl, rfl, rfl⟩

theorem summarize_insufficient {sel : List DailyObservation} {tm td : Nat}
    (h : sel.length < MIN_OBSERVATIONS) :
    summarize sel tm td = Except.error EngineError.InsufficientData := by
  simp [summarize, h]

/-- C7: `select_window` fails with `InvalidDate` exactly when the target
month is outside `[1,12]` or the target day is outside
`[1, days-in-month]` for that month; the error is produced synchronously
by the pure selector, which performs no retry. -/
theorem C7_invalid_date (ds : List DailyObservation) (tm td w : Nat) :
    select_window ds tm td w = Except.error EngineError.InvalidDate ↔
      ¬(1 ≤ tm ∧ tm ≤ 12 ∧ 1 ≤ td ∧ td ≤ daysInMonth tm) := by
  by_cases hv : validDate tm td
  · have hv2 : 1 ≤ tm ∧ tm ≤ 12 ∧ 1 ≤ td ∧ td ≤ daysInMonth tm := by
      simp only [validDate, Bool.and_eq_true, decide_eq_true_eq] at hv
      tauto
    simp [select_window, hv, hv2]
  · have hv2 : ¬(1 ≤ tm ∧ tm ≤ 12 ∧ 1 ≤ td ∧ td ≤ daysInMonth tm) := by
      simp only [validDate, Bool.and_eq_true, decide_eq_true_eq] at hv
      tauto
    simp [select_window, hv, hv2]

/-- C8: `getWeatherPrediction` invoked without a `windowDays` argument
sends `window_days = 7` in the query parameters of the
`/api/predict/{month}/{day}` request. -/
theorem C8_default_window_days (month day : Nat) (location : String) :
    (getWeatherPrediction month day location none).2.window_days = 7 := rfl

/-- C10: `handleVote` with no selected option leaves the poll results and
the submitted flag entirely unchanged; with a selected (non-empty) option
it sets the submitted flag and rewrites the poll results entrywise,
keeping every name, incrementing by exactly one the value of each entry
whose name equals the selected option and keeping every other value. -/
theorem C10_handleVote_frame (s : PanelState) (opt : String) (hopt : opt ≠ "") :
    handleVote none s = s ∧
    (handleVote (some opt) s).submitted = true ∧
    List.Forall₂
      (fun a b => b.name = a.name ∧
        b.value = a.value + (if a.name = opt then 1 else 0))
      s.pollResults (handleVote (some opt) s).pollResults := by
  refine ⟨rfl, ?_, ?_⟩
  · simp [handleVote, hopt]
  · simp only [handleVote, hopt, if_false, if_neg hopt]
    rw [List.forall₂_map_right_iff]
    rw [List.forall₂_same]
    intro a _
    by_cases ha : a.name = opt <;> simp [ha]

/-- Witness for C10: the theorem applied to the component's seeded poll
state with the option "Stay home". -/
theorem C10_handleVote_frame_witness :
    handleVote none initialPanelState = initialPanelState ∧
    (handleVote (some "Stay home") initialPanelState).submitted = true ∧
    List.Forall₂
      (fun a b => b.name = a.name ∧
        b.value = a.value + (if a.name = "Stay home" then 1 else 0))
      initialPanelState.pollResults
      (handleVote (some "Stay home") initialPanelState).pollResults :=
  C10_handleVote_frame initialPanelState "Stay home" (by decide)

/-- C1: for every selection produced by `select_window` on a valid target,
the rainfall probability reported by `summarize` equals the number of
selected observations with positive precipitation divided by the total
number of selected observations, and lies in `[0,1]`. -/
theorem C1_rainfall_probability (ds sel : List DailyObservation) (tm td w : Nat)
    (r : PredictionResult) (_hsel : select_window ds tm td w = Except.ok sel)
    (hr : summarize sel tm td = Except.ok r) :
    r.rainfall.probability =
      ((sel.countP (fun o => 0 < o.precipitation_mm) : ℚ) / (sel.length : ℚ)) ∧
    0 ≤ r.rainfall.probability ∧ r.rainfall.probability ≤ 1 := by
  obtain ⟨hlen, hprob, -⟩ := summarize_ok_spec hr
  have hn : 0 < (sel.length : ℚ) := by
    have h2 : 0 < sel.length := lt_of_lt_of_le (by decide) hlen
    exact_mod_cast h2
  have hcount : ((sel.countP (fun o => 0 < o.precipitation_mm) : Nat) : ℚ) ≤
      (sel.length : ℚ) := by
    exact_mod_cast List.countP_le_length _
  refine ⟨hprob, ?_, ?_⟩
  · rw [hprob]
    positivity
  · rw [hprob, div_le_one hn]
    exact hcount

/-- Witness for C1: the theorem applied to the spec's three-observation
July 15 example (probability 2/3). -/
theorem C1_rainfall_probability_witness :
    ∃ r, summarize exampleSelection 7 15 = Except.ok r ∧
      (r.rainfall.probability =
        ((exampleSelection.countP (fun o => 0 < o.precipitation_mm) : ℚ) /
          (exampleSelection.length : ℚ)) ∧
       0 ≤ r.rainfall.probability ∧ r.rainfall.probability ≤ 1) := by
  refine ⟨_, rfl, C1_rainfall_probability exampleSelection exampleSelection 7 15 0 _ ?_ rfl⟩
  rfl

/-- C2: the expected rainfall amount reported by `summarize` is the
arithmetic mean of `precipitation_mm` over all selected observations,
zero-rain days included; on the spec's `[0, 5, 12]` example it is `17/3`,
which differs from the mean `17/2` restricted to rainy days only. -/
theorem C2_expected_amount (sel : List DailyObservation) (tm td : Nat)
    (r : PredictionResult) (hr : summarize sel tm td = Except.ok r) :
    r.rainfall.expected_amount_mm =
      (sel.map (fun o => o.precipitation_mm)).sum / (sel.length : ℚ) ∧
    (∃ r2, summarize exampleSelection 7 15 = Except.ok r2 ∧
      r2.rainfall.expected_amount_mm = 17/3 ∧
      mean ((exampleSelection.map (fun o => o.precipitation_mm)).filter
        (fun x => 0 < x)) = 17/2 ∧
      r2.rainfall.expected_amount_mm ≠
        mean ((exampleSelection.map (fun o => o.precipitation_mm)).filter
          (fun x => 0 < x))) := by
  obtain ⟨-, -, hexp, -⟩ := summarize_ok_spec hr
  have hmap : exampleSelection.map (fun o => o.precipitation_mm) = [0, 5, 12] := rfl
  have hall : mean (exampleSelection.map (fun o => o.precipitation_mm)) = 17/3 := by
    rw [hmap, mean]
    norm_num
  have hrainy : mean ((exampleSelection.map (fun o => o.precipitation_mm)).filter
      (fun x => 0 < x)) = 17/2 := by
    rw [hmap]
    norm_num [mean]
  constructor
  · rw [hexp, mean, List.length_map]
  · obtain ⟨r2, hr2⟩ : ∃ r2, summarize exampleSelection 7 15 = Except.ok r2 := ⟨_, rfl⟩
    obtain ⟨-, -, hexp2, -⟩ := summarize_ok_spec hr2
    refine ⟨r2, hr2, ?_, hrainy, ?_⟩
    · rw [hexp2, hall]
    · rw [hexp2, hall, hrainy]
      norm_num

/-- Witness for C2: the theorem applied to the spec's example selection. -/
theorem C2_expected_amount_witness :
    ∃ r, summarize exampleSelection 7 15 = Except.ok r ∧
      r.rainfall.expected_amount_mm =
        (exampleSelection.map (fun o => o.precipitation_mm)).sum /
          (exampleSelection.length : ℚ) := by
  refine ⟨_, rfl, (C2_expected_amount exampleSelection 7 15 _ rfl).1⟩

/-- C6: `summarize` is deterministic — a repeated call on the same inputs
is the same value, and any two successful results with identical aggregate
rainfall probability and cloud-cover mean receive the same weather
category and the same confidence score. -/
theorem C6_determinism (sel1 sel2 : List DailyObservation) (tm1 td1 tm2 td2 : Nat)
    (r1 r2 : PredictionResult)
    (h1 : summarize sel1 tm1 td1 = Except.ok r1)
    (h2 : summarize sel2 tm2 td2 = Except.ok r2)
    (hprob : r1.rainfall.probability = r2.rainfall.probability)
    (hcloud : r1.cloud_cover.mean_percent = r2.cloud_cover.mean_percent) :
    summarize sel1 tm1 td1 = summarize sel1 tm1 td1 ∧
    r1.weather_category = r2.weather_category ∧
    r1.category_confidence = r2.category_confidence := by
  obtain ⟨-, -, -, -, -, -, -, -, -, hcat1, hconf1⟩ := summarize_ok_spec h1
  obtain ⟨-, -, -, -, -, -, -, -, -, hcat2, hconf2⟩ := summarize_ok_spec h2
  refine ⟨rfl, ?_, ?_⟩
  · rw [hcat1, hcat2, hprob, hcloud]
  · rw [hconf1, hconf2, hprob, hcloud]

/-- Witness for C6: the theorem applied twice to the spec's example
selection. -/
theorem C6_determinism_witness :
    ∃ r, summarize exampleSelection 7 15 = Except.ok r ∧
      (summarize exampleSelection 7 15 = summarize exampleSelection 7 15 ∧
       r.weather_category = r.weather_category ∧
       r.category_confidence = r.category_confidence) := by
  refine ⟨_, rfl,
    C6_determinism exampleSelection exampleSelection 7 15 7 15 _ _ rfl rfl rfl rfl⟩

/-- Counterexample for C5: on an eleven-observation selection whose
temperature means are ten 0 °C values and one 1100 °C value, the mean
(100 °C) lies strictly above the 90th-percentile band edge (0 °C), so the
claimed chain `record_low ≤ range.min ≤ mean ≤ range.max ≤ record_high`
fails at its middle links. -/
theorem C5_chain_counterexample :
    ∃ r, summarize skewedSelection 7 15 = Except.ok r ∧
      ¬(r.temperature.record_low_celsius ≤ r.temperature.expected_range.min ∧
        r.temperature.expected_range.min ≤ r.temperature.mean_avg_celsius ∧
        r.temperature.mean_avg_celsius ≤ r.temperature.expected_range.max ∧
        r.temperature.expected_range.max ≤ r.temperature.record_high_celsius) := by
  obtain ⟨r, hr⟩ : ∃ r, summarize skewedSelection 7 15 = Except.ok r := ⟨_, rfl⟩
  obtain ⟨-, -, -, hmean, -, hpmax, -⟩ := summarize_ok_spec hr
  have hmap : skewedSelection.map (fun o => o.temperature_mean) =
      [0, 0, 0, 0, 0, 0, 0, 0, 0, 0, 1100] := rfl
  have h1 : r.temperature.mean_avg_celsius = 100 := by
    rw [hmean, hmap, mean]
    norm_num
  have h2 : r.temperature.expected_range.max = 0 := by
    rw [hpmax, hmap]
    decide
  refine ⟨r, hr, ?_⟩
  rintro ⟨-, -, h3, -⟩
  rw [h1, h2] at h3
  norm_num at h3

/-- C5 (amended): for every successful `summarize` result, the record
low is at most the lower percentile-band edge, the band edges are ordered,
the upper band edge is at most the record high, and the mean itself lies
between the record low and the record high; the mean need not lie inside
the percentile band. -/
theorem C5_temperature_chain_amended (sel : List DailyObservation) (tm td : Nat)
    (r : PredictionResult) (hr : summarize sel tm td = Except.ok r) :
    r.temperature.record_low_celsius ≤ r.temperature.expected_range.min ∧
    r.temperature.expected_range.min ≤ r.temperature.expected_range.max ∧
    r.temperature.expected_range.max ≤ r.temperature.record_high_celsius ∧
    r.temperature.record_low_celsius ≤ r.temperature.mean_avg_celsius ∧
    r.temperature.mean_avg_celsius ≤ r.temperature.record_high_celsius := by
  obtain ⟨hlen, -, -, hmean, hpmin, hpmax, hlow, hhigh, -⟩ := summarize_ok_spec hr
  have hne : sel.map (fun o => o.temperature_mean) ≠ [] := by
    apply List.ne_nil_of_length_pos
    rw [List.length_map]
    exact lt_of_lt_of_le (by decide) hlen
  refine ⟨?_, ?_, ?_, ?_, ?_⟩
  · rw [hlow, hpmin]
    exact listMin_le (percentile_mem hne (by norm_num) (by norm_num))
  · rw [hpmin, hpmax]
    exact percentile_mono hne (by norm_num) (by norm_num) (by norm_num)
  · rw [hpmax, hhigh]
    exact le_listMax (percentile_mem hne (by norm_num) (by norm_num))
  · rw [hlow, hmean]
    exact listMin_le_mean hne
  · rw [hmean, hhigh]
    exact mean_le_listMax hne

/-- Witness for C5 (amended): the theorem applied to the spec's example
selection. -/
theorem C5_temperature_chain_amended_witness :
    ∃ r, summarize exampleSelection 7 15 = Except.ok r ∧
      (r.temperature.record_low_celsius ≤ r.temperature.expected_range.min ∧
       r.temperature.expected_range.min ≤ r.temperature.expected_range.max ∧
       r.temperature.expected_range.max ≤ r.temperature.record_high_celsius ∧
       r.temperature.record_low_celsius ≤ r.temperature.mean_avg_celsius ∧
       r.temperature.mean_avg_celsius ≤ r.temperature.record_high_celsius) := by
  refine ⟨_, rfl, C5_temperature_chain_amended exampleSelection 7 15 _ rfl⟩

/-- C3: on a valid target date, `select_window` succeeds and selects
exactly the observations whose month/day lies within `window_days` of the
target measured as circular day-of-year distance; in particular a target
of January 3 with a 7-day window selects every December 27–31 observation
of the dataset. -/
theorem C3_window_selection (ds : List DailyObservation) (tm td w : Nat)
    (hv : validDate tm td = true) :
    ∃ sel, select_window ds tm td w = Except.ok sel ∧
      (∀ o : DailyObservation, o ∈ sel ↔ o ∈ ds ∧
        cyclicDist (dayOfYear o.month o.day) (dayOfYear tm td) ≤ w) ∧
      (tm = 1 → td = 3 → w = 7 →
        ∀ o ∈ ds, o.month = 12 → 27 ≤ o.day → o.day ≤ 31 → o ∈ sel) := by
  refine ⟨ds.filter (fun o => inWindow tm td w o.month o.day), by simp [select_window, hv],
    ?_, ?_⟩
  · intro o
    rw [List.mem_filter]
    simp [inWindow]
  · rintro rfl rfl rfl o ho hm h27 h31
    rw [List.mem_filter]
    refine ⟨ho, ?_⟩
    rcases o with ⟨y, m, d, t, p, ws, cc⟩
    simp only at hm h27 h31
    subst hm
    show inWindow 1 3 7 12 d = true
    interval_cases d <;> decide

/-- Witness for C3: the theorem applied to the synthetic year-boundary
dataset with target January 3 and window 7. -/
theorem C3_window_selection_witness :
    ∃ sel, select_window wrapDataset 1 3 7 = Except.ok sel ∧
      (∀ o : DailyObservation, o ∈ sel ↔ o ∈ wrapDataset ∧
        cyclicDist (dayOfYear o.month o.day) (dayOfYear 1 3) ≤ 7) ∧
      (1 = 1 → 3 = 3 → 7 = 7 →
        ∀ o ∈ wrapDataset, o.month = 12 → 27 ≤ o.day → o.day ≤ 31 → o ∈ sel) :=
  C3_window_selection wrapDataset 1 3 7 (by decide)

/-- C4: `select_window` returns an empty selection (not an error) on an
empty dataset and always succeeds on a valid target; `summarize` fails
with `InsufficientData` whenever the selection holds fewer than
`MIN_OBSERVATIONS` observations; and on a dataset with a single year of
coverage (distinct valid dates, all the same year) a `window_days = 0`
query always ends in `InsufficientData`. -/
theorem C4_insufficient_data :
    (∀ (tm td w : Nat), validDate tm td = true →
      select_window [] tm td w = Except.ok []) ∧
    (∀ (ds : List DailyObservation) (tm td w : Nat), validDate tm td = true →
      ∃ sel, select_window ds tm td w = Except.ok sel) ∧
    (∀ (sel : List DailyObservation) (tm td : Nat),
      sel.length < MIN_OBSERVATIONS →
      summarize sel tm td = Except.error EngineError.InsufficientData) ∧
    (∀ (ds : List DailyObservation) (y tm td : Nat) (sel : List DailyObservation),
      (∀ o ∈ ds, o.year = y) →
      List.Pairwise (fun a b : DailyObservation =>
        (a.year, a.month, a.day) ≠ (b.year, b.month, b.day)) ds →
      (∀ o ∈ ds, validDate o.month o.day = true) →
      validDate tm td = true →
      select_window ds tm td 0 = Except.ok sel →
      summarize sel tm td = Except.error EngineError.InsufficientData) := by
  refine ⟨?_, ?_, ?_, ?_⟩
  · intro tm td w hv
    simp [select_window, hv]
  · intro ds tm td w hv
    exact ⟨ds.filter (fun o => inWindow tm td w o.month o.day), by simp [select_window, hv]⟩
  · intro sel tm td h
    exact summarize_insufficient h
  · intro ds y tm td sel hyear hpw hvalid hv hsel
    rw [select_window, if_pos hv, Except.ok.injEq] at hsel
    subst hsel
    apply summarize_insufficient
    set p := fun o : DailyObservation => inWindow tm td 0 o.month o.day with hp
    suffices h : (ds.filter p).length ≤ 1 by
      have h2 : MIN_OBSERVATIONS = 2 := rfl
      omega
    by_contra hgt
    push_neg at hgt
    have h0 : 0 < (ds.filter p).length := by omega
    have h1 : 1 < (ds.filter p).length := by omega
    have hmd : (ds.filter p).Pairwise (fun a b : DailyObservation =>
        (a.month, a.day) ≠ (b.month, b.day)) := by
      refine List.Pairwise.filter p (hpw.imp_of_mem ?_)
      intro a b ha hb hne heq
      apply hne
      rw [hyear a ha, hyear b hb]
      rw [Prod.mk.injEq]
      exact ⟨rfl, heq⟩
    have hne := List.pairwise_iff_get.mp hmd ⟨0, h0⟩ ⟨1, h1⟩ (by simp)
    set a := (ds.filter p).get ⟨0, h0⟩ with hadef
    set b := (ds.filter p).get ⟨1, h1⟩ with hbdef
    have hamem : a ∈ ds.filter p := (ds.filter p).get_mem _ _
    have hbmem : b ∈ ds.filter p := (ds.filter p).get_mem _ _
    have hva : validDate a.month a.day = true := hvalid a (List.mem_of_mem_filter hamem)
    have hvb : validDate b.month b.day = true := hvalid b (List.mem_of_mem_filter hbmem)
    have hdoy : ∀ o : DailyObservation, o ∈ ds.filter p →
        validDate o.month o.day = true →
        dayOfYear o.month o.day = dayOfYear tm td := by
      intro o hmem hvo
      have hpo := List.of_mem_filter hmem
      rw [hp] at hpo
      simp only [inWindow, decide_eq_true_eq, Nat.le_zero] at hpo
      obtain ⟨ho1, ho2⟩ := dayOfYear_range hvo
      obtain ⟨ht1, ht2⟩ := dayOfYear_range hv
      exact cyclicDist_eq_zero ho1 ho2 ht1 ht2 hpo
    have heq : dayOfYear a.month a.day = dayOfYear b.month b.day := by
      rw [hdoy a hamem hva, hdoy b hbmem hvb]
    obtain ⟨hm, hd⟩ := dayOfYear_inj hva hvb heq
    exact hne (by rw [Prod.mk.injEq]; exact ⟨hm, hd⟩)

/-- Witness for C4: the empty dataset, a one-observation selection, and
the one-year dataset pipeline with a zero-day window all reach the
guaranteed outcomes. -/
theorem C4_insufficient_data_witness :
    select_window [] 7 15 0 = Except.ok [] ∧
    summarize [mkObs 2020 7 15 25 0] 7 15 = Except.error EngineError.InsufficientData ∧
    summarize (oneYearDataset.filter (fun o => inWindow 7 15 0 o.month o.day)) 7 15 =
      Except.error EngineError.InsufficientData :=
  ⟨C4_insufficient_data.1 7 15 0 (by decide),
   C4_insufficient_data.2.2.1 [mkObs 2020 7 15 25 0] 7 15 (by decide),
   C4_insufficient_data.2.2.2 oneYearDataset 2020 7 15 _ (by decide) (by decide)
     (by decide) (by decide) rfl⟩

/-- C9: `findNearestLocation` errors when the fetched locations list is
missing or empty, and otherwise returns a location of the list together
with its computed distance, and that distance is less than or equal to the
computed distance of every location in the list — for any distance
function, hence for the source's Haversine `calculateDistance`. -/
theorem C9_nearest_location (dist : ℚ → ℚ → ℚ → ℚ → ℚ) (lat lon : ℚ)
    (locs : List GeoLocation) (hne : locs ≠ []) :
    findNearestLocation dist lat lon none = Except.error "No locations available" ∧
    findNearestLocation dist lat lon (some []) = Except.error "No locations available" ∧
    ∃ best, findNearestLocation dist lat lon (some locs) = Except.ok best ∧
      best.1 ∈ locs ∧
      best.2 = dist lat lon best.1.latitude best.1.longitude ∧
      ∀ loc ∈ locs, best.2 ≤ dist lat lon loc.latitude loc.longitude := by
  refine ⟨rfl, rfl, ?_⟩
  have hemp : locs.isEmpty = false := by
    cases locs with
    | nil => exact absurd rfl hne
    | cons a l => rfl
  simp only [findNearestLocation, hemp, Bool.false_eq_true, if_false]
  set distances := locs.map
    (fun loc => (loc, dist lat lon loc.latitude loc.longitude)) with hdistdef
  set sorted := distances.insertionSort (fun a b => a.2 ≤ b.2) with hsortdef
  have hlen : sorted.length = locs.length := by
    rw [hsortdef, List.length_insertionSort, hdistdef, List.length_map]
  have hlpos : 0 < locs.length := List.length_pos.mpr hne
  cases hs : sorted with
  | nil =>
    rw [hs] at hlen
    simp at hlen
    omega
  | cons b t =>
    rw [List.headD_cons]
    have hbmem : b ∈ distances := by
      rw [← List.mem_insertionSort (fun a b => a.2 ≤ b.2), ← hsortdef, hs]
      exact List.mem_cons_self b t
    obtain ⟨loc, hloc, hbeq⟩ := List.mem_map.mp hbmem
    subst hbeq
    refine ⟨_, rfl, hloc, rfl, ?_⟩
    intro loc2 hloc2
    have hmem2 : (loc2, dist lat lon loc2.latitude loc2.longitude) ∈ distances :=
      List.mem_map_of_mem _ hloc2
    have hmem2s : (loc2, dist lat lon loc2.latitude loc2.longitude) ∈ sorted :=
      (List.mem_insertionSort _).mpr hmem2
    rw [hs] at hmem2s
    rcases List.mem_cons.mp hmem2s with heq | hmem2t
    · exact le_of_eq (congrArg Prod.snd heq).symm
    · have hsorted : List.Sorted (fun a b : GeoLocation × ℚ => a.2 ≤ b.2) sorted :=
        List.sorted_insertionSort _ _
      rw [hs] at hsorted
      exact List.rel_of_sorted_cons hsorted _ hmem2t

/-- Witness for C9: the theorem applied to the two sample stations with a
simple concrete distance function. -/
theorem C9_nearest_location_witness :
    ∃ best, findNearestLocation (fun la1 lo1 la2 lo2 => (la2 - la1) + (lo2 - lo1)) 0 0
        (some sampleLocations) = Except.ok best ∧
      best.1 ∈ sampleLocations ∧
      best.2 = (fun la1 lo1 la2 lo2 => (la2 - la1) + (lo2 - lo1)) 0 0
        best.1.latitude best.1.longitude ∧
      ∀ loc ∈ sampleLocations, best.2 ≤
        (fun la1 lo1 la2 lo2 => (la2 - la1) + (lo2 - lo1)) 0 0
          loc.latitude loc.longitude :=
  (C9_nearest_location (fun la1 lo1 la2 lo2 => (la2 - la1) + (lo2 - lo1)) 0 0
    sampleLocations (by decide)).2.2

end PlanMySky
